import Mathlib

/-!
# Verification of the sidecar process supervisor (`src/client/src-tauri/src/lib.rs`)

Shallow embedding of the Tauri supervisor commands:
`check_server_health`, `start_server`, `start_embedded_server`,
`wait_for_server_ready`, and the startup task spawned in `run`'s setup hook.

Effects are modelled by explicit environments:
* one HTTP probe outcome (`HttpResult`) per `reqwest` request;
* a filesystem/OS environment (`FsEnv`, `EmbedEnv`) answering `exists()`,
  `spawn()` and `try_wait()`;
and each operation returns, besides its Rust `Result` value, a trace of the
observable effects it performed (requests issued, spawn attempts, sleeps,
log messages), in order.
-/

namespace NyxApp

/-- Outcome of one `reqwest` request: either a response with a numeric HTTP
status code, or a transport-level failure (connection error, DNS failure,
or the client-side timeout), which `reqwest` reports as `Err(_)`. -/
inductive HttpResult where
  | response (status : Nat)
  | transportError
deriving DecidableEq, Repr

/-- An HTTP request descriptor: method, URL and the per-request timeout in
seconds, as configured on the `reqwest` request builder. -/
structure HttpRequest where
  method : String
  url : String
  timeoutSecs : Nat
deriving DecidableEq, Repr

/-- `reqwest::StatusCode::is_success()`: the status is in `200..=299`. -/
def statusIsSuccess (s : Nat) : Bool := 200 ≤ s && s < 300

/-- The single request `check_server_health` builds:
`GET http://localhost:8080/health` with a 5-second timeout. -/
def healthRequest : HttpRequest :=
  { method := "GET", url := "http://localhost:8080/health", timeoutSecs := 5 }

/-- `check_server_health` (lib.rs lines 5-16): issues the one health request
and folds the outcome: `Ok(response) => Ok(response.status().is_success())`,
`Err(_) => Ok(false)`.  The second component is the list of HTTP requests
the call issues. -/
def check_server_health (r : HttpResult) : Except String Bool × List HttpRequest :=
  match r with
  | .response s => (.ok (statusIsSuccess s), [healthRequest])
  | .transportError => (.ok false, [healthRequest])

/-- The boolean the health check computes from a probe outcome. -/
def healthBool (r : HttpResult) : Bool :=
  match r with
  | .response s => statusIsSuccess s
  | .transportError => false

/-- Result of the OS `Command::spawn` call for one candidate:
either a child handle was obtained, or the OS refused with an error. -/
inductive SpawnOutcome where
  | ok
  | failed (osError : String)
deriving DecidableEq, Repr

/-- Filesystem/OS environment for `start_server`: whether each path exists,
and what `spawn` yields when attempted on a candidate path.  (A `.py`
candidate is spawned through the `python` interpreter with working
directory `../server`, a binary candidate directly; both are abstracted
into `spawn` keyed by the candidate path, since the claims only concern
which candidates are attempted and what the caller sees.) -/
structure FsEnv where
  pathExists : String → Bool
  spawn : String → SpawnOutcome

/-- The hard-coded candidate list of `start_server`, in priority order. -/
def server_paths : List String :=
  ["../server/main.py", "./server/main.py", "../server/dist/main.exe",
   "./server/dist/main.exe", "server.exe"]

/-- Trace of one `start_server` call: the returned `Result<String, String>`,
the candidate paths on which `spawn` was attempted (in order), and the
`log::warn!` messages emitted (in order). -/
structure ServerStartTrace where
  result : Except String String
  spawnAttempts : List String
  warns : List String

/-- The loop body of `start_server` (lib.rs lines 29-52) over a remaining
candidate list: skip non-existing paths; on an existing path attempt a
spawn; on success return `Ok("Server started from {path}")`; on failure
log a warning and continue with the remaining candidates. -/
def start_server_loop (env : FsEnv) : List String → ServerStartTrace
  | [] => { result := .error "Could not find or start server executable",
            spawnAttempts := [], warns := [] }
  | p :: rest =>
    if env.pathExists p then
      match env.spawn p with
      | .ok =>
        { result := .ok ("Server started from " ++ p),
          spawnAttempts := [p], warns := [] }
      | .failed e =>
        match start_server_loop env rest with
        | t =>
          { result := t.result,
            spawnAttempts := p :: t.spawnAttempts,
            warns := ("Failed to start server from " ++ p ++ ": " ++ e) :: t.warns }
    else
      start_server_loop env rest

/-- `start_server` (lib.rs lines 18-55): run the loop over `server_paths`. -/
def start_server (env : FsEnv) : ServerStartTrace :=
  start_server_loop env server_paths

/-- Outcome of `child.try_wait()` after the grace period:
`Ok(Some(status))` (the child exited; `statusDisplay` is the `Display`
rendering of the `ExitStatus`), `Ok(None)` (still running), or `Err(e)`. -/
inductive TryWaitResult where
  | exited (statusDisplay : String)
  | running
  | checkError (e : String)
deriving DecidableEq, Repr

/-- Environment for `start_embedded_server`: the result of resolving the
app's resource directory, path existence, the outcome of spawning the
resolved binary, and the outcome of the post-grace `try_wait`. -/
structure EmbedEnv where
  resourceDir : Except String String
  pathExists : String → Bool
  spawnResult : Except String Unit
  tryWait : TryWaitResult

/-- Trace of one `start_embedded_server` call: the returned
`Result<(), String>`, whether a spawn was attempted at all, and the list
of sleep durations (seconds) performed, in order. -/
structure EmbedTrace where
  result : Except String Unit
  spawnAttempted : Bool
  sleeps : List Nat

/-- `start_embedded_server` (lib.rs lines 66-114): resolve
`resource_dir()/nyx-server.exe`; error without spawning if the
resolution fails or the file is absent; otherwise spawn, sleep the
3-second grace period, and fold `try_wait`: early exit → error carrying
the exit status, still running → `Ok(())`, check error → error carrying
the underlying error. -/
def start_embedded_server (env : EmbedEnv) : EmbedTrace :=
  match env.resourceDir with
  | .error e =>
    { result := .error ("Failed to get resource directory: " ++ e),
      spawnAttempted := false, sleeps := [] }
  | .ok dir =>
    if env.pathExists (dir ++ "/nyx-server.exe") then
      match env.spawnResult with
      | .error e =>
        { result := .error ("Failed to start server: " ++ e),
          spawnAttempted := true, sleeps := [] }
      | .ok _ =>
        match env.tryWait with
        | .exited s =>
          { result := .error ("Server process exited early with status: " ++ s),
            spawnAttempted := true, sleeps := [3] }
        | .running =>
          { result := .ok (), spawnAttempted := true, sleeps := [3] }
        | .checkError e =>
          { result := .error ("Error checking server process: " ++ e),
            spawnAttempted := true, sleeps := [3] }
    else
      { result := .error "Server executable not found in resources",
        spawnAttempted := false, sleeps := [] }

/-- Events of the `wait_for_server_ready` polling loop, in order:
a health probe on loop index `i`, a sleep of the given number of seconds,
or entry into the `Err(e)` arm of the match on the probe's result. -/
inductive Ev where
  | probe (i : Nat)
  | sleep (secs : Nat)
  | errArm (i : Nat)
deriving DecidableEq, Repr

/-- The error string of `wait_for_server_ready`'s timeout. -/
def timeoutMsg : String := "Server failed to start within 30 seconds"

/-- The `for i in 0..30` loop of `wait_for_server_ready` (lib.rs lines
120-136), with `i` the current index and the second argument the number of
iterations left.  Each iteration calls `check_server_health`; `Ok(true)`
returns `Ok(true)` at once, `Ok(false)` and `Err(_)` both sleep one second
and continue (the `Err` arm additionally records an `Ev.errArm` marker so
its reachability can be stated).  Falling off the loop yields the timeout
error. -/
def wait_loop (env : Nat → HttpResult) : Nat → Nat → Except String Bool × List Ev
  | _, 0 => (.error timeoutMsg, [])
  | i, n+1 =>
    match (check_server_health (env i)).1 with
    | .ok true => (.ok true, [.probe i])
    | .ok false =>
      match wait_loop env (i+1) n with
      | (r, evs) => (r, .probe i :: .sleep 1 :: evs)
    | .error _ =>
      match wait_loop env (i+1) n with
      | (r, evs) => (r, .probe i :: .errArm i :: .sleep 1 :: evs)

/-- `wait_for_server_ready` (lib.rs lines 116-139): run the loop from index
0 with 30 attempts.  `env i` is the outcome of the HTTP probe made by the
`i`-th call to `check_server_health`. -/
def wait_for_server_ready (env : Nat → HttpResult) : Except String Bool × List Ev :=
  wait_loop env 0 30

def isProbe : Ev → Bool
  | .probe _ => true
  | _ => false

def isSleep : Ev → Bool
  | .sleep _ => true
  | _ => false

def isErrArm : Ev → Bool
  | .errArm _ => true
  | _ => false

/-- Number of health probes in an event trace. -/
def numProbes (l : List Ev) : Nat := (l.filter isProbe).length

/-- Number of sleeps in an event trace. -/
def numSleeps (l : List Ev) : Nat := (l.filter isSleep).length

/-- Number of times the `Err(_)` arm of the polling loop's match ran. -/
def numErrArms (l : List Ev) : Nat := (l.filter isErrArm).length

/-- The trace of `n` consecutive failed probes starting at loop index `i`:
each failed probe is immediately followed by a one-second sleep. -/
def failTrace (i : Nat) : Nat → List Ev
  | 0 => []
  | n+1 => .probe i :: .sleep 1 :: failTrace (i+1) n

/-- Environment for one run of the startup task spawned in `run`'s setup
hook: the outcome of its initial health probe, and the environments of the
embedded and external launch attempts it may make. -/
structure RunEnv where
  startupProbe : HttpResult
  embed : EmbedEnv
  fs : FsEnv

/-- Trace of one run of the startup task: sleeps performed (seconds, in
order), number of health probes, number of calls to
`start_embedded_server` and to `start_server`, total number of OS spawn
attempts across both, whether the `Err(e)` arm of the initial health-check
match ran, and the log messages emitted in the task's closure, in order. -/
structure StartupTrace where
  sleeps : List Nat
  probes : Nat
  embeddedCalls : Nat
  externalCalls : Nat
  spawnCalls : Nat
  healthErrArm : Bool
  logs : List String

/-- The async startup task of `run` (lib.rs lines 160-185): sleep 2 seconds,
probe once; `Ok(true)` → log and stop; `Ok(false)` → try
`start_embedded_server`, and on its failure fall back to `start_server`
exactly once, logging either outcome; `Err(e)` → log the error.  The task
is a total function into `StartupTrace`: no branch panics or propagates an
error out of the closure. -/
def startup_task (env : RunEnv) : StartupTrace :=
  match (check_server_health env.startupProbe).1 with
  | .ok true =>
    { sleeps := [2], probes := 1, embeddedCalls := 0, externalCalls := 0,
      spawnCalls := 0, healthErrArm := false,
      logs := ["Server is already running"] }
  | .ok false =>
    match start_embedded_server env.embed with
    | { result := .ok _, spawnAttempted := sp, sleeps := sl } =>
      { sleeps := 2 :: sl, probes := 1, embeddedCalls := 1, externalCalls := 0,
        spawnCalls := (if sp then 1 else 0), healthErrArm := false,
        logs := ["Server not running, starting embedded server...",
                 "Embedded server started successfully"] }
    | { result := .error e, spawnAttempted := sp, sleeps := sl } =>
      match start_server env.fs with
      | { result := .ok msg, spawnAttempts := att, warns := ws } =>
        { sleeps := 2 :: sl, probes := 1, embeddedCalls := 1, externalCalls := 1,
          spawnCalls := (if sp then 1 else 0) + att.length, healthErrArm := false,
          logs := ("Server not running, starting embedded server..." ::
                   ("Failed to start embedded server: " ++ e) :: ws) ++
                  ["Fallback server start: " ++ msg] }
      | { result := .error e2, spawnAttempts := att, warns := ws } =>
        { sleeps := 2 :: sl, probes := 1, embeddedCalls := 1, externalCalls := 1,
          spawnCalls := (if sp then 1 else 0) + att.length, healthErrArm := false,
          logs := ("Server not running, starting embedded server..." ::
                   ("Failed to start embedded server: " ++ e) :: ws) ++
                  ["All server start methods failed: " ++ e2] }
  | .error e =>
    { sleeps := [2], probes := 1, embeddedCalls := 0, externalCalls := 0,
      spawnCalls := 0, healthErrArm := true,
      logs := ["Error checking server health: " ++ e] }

/-! ## Helper lemmas -/

lemma check_fst (r : HttpResult) : (check_server_health r).1 = .ok (healthBool r) := by
  cases r <;> rfl

lemma check_snd (r : HttpResult) : (check_server_health r).2 = [healthRequest] := by
  cases r <;> rfl

/-! ## C2: the health prober -/

/-- **C2.** `check_server_health` issues exactly one HTTP GET to
`http://localhost:8080/health` with a 5-second timeout, returns
`Ok(true)` exactly when the response status is 2xx, returns `Ok(false)`
on every transport failure or timeout, and never returns an `Err` value
to its caller. -/
theorem check_server_health_spec (r : HttpResult) :
    (check_server_health r).2 =
      [{ method := "GET", url := "http://localhost:8080/health", timeoutSecs := 5 }] ∧
    (∀ s, r = .response s → (check_server_health r).1 = .ok (statusIsSuccess s)) ∧
    (r = .transportError → (check_server_health r).1 = .ok false) ∧
    (∀ e, (check_server_health r).1 ≠ .error e) := by
  refine ⟨check_snd r, ?_, ?_, ?_⟩
  · rintro s rfl; rfl
  · rintro rfl; rfl
  · intro e h
    rw [check_fst r] at h
    exact Except.noConfusion h

/-- Witness for C2 at concrete probe outcomes: a 204 response yields
`Ok(true)`, a 500 response and a transport error yield `Ok(false)`, and
the issued request is the fixed health request. -/
theorem check_server_health_spec_witness :
    (check_server_health (.response 204)).1 = .ok true ∧
    (check_server_health (.response 500)).1 = .ok false ∧
    (check_server_health .transportError).1 = .ok false ∧
    (check_server_health .transportError).2 =
      [{ method := "GET", url := "http://localhost:8080/health", timeoutSecs := 5 }] :=
  ⟨(check_server_health_spec (.response 204)).2.1 204 rfl,
   (check_server_health_spec (.response 500)).2.1 500 rfl,
   (check_server_health_spec .transportError).2.2.1 rfl,
   (check_server_health_spec .transportError).1⟩

/-! ## C1: candidate selection in `start_server` -/

/-- Environment refuting C1: `../server/main.py` (candidate A) is missing,
`./server/main.py` (candidate B) exists but the OS refuses to spawn it,
and `../server/dist/main.exe` (candidate C) exists and spawns fine. -/
def fsEnvC1 : FsEnv :=
  { pathExists := fun p => p == "./server/main.py" || p == "../server/dist/main.exe",
    spawn := fun p =>
      if p == "./server/main.py" then .failed "Access is denied. (os error 5)"
      else .ok }

/-- **C1 counterexample.** With candidates `[A(missing), B(exists),
C(exists)]` and a spawn failure on B, the single `start_server` call
attempts B and then C — the later candidate C *is* used and the call
succeeds from it, contradicting the claim that a spawn failure on the
first existing candidate is never retried with a later candidate. -/
theorem start_server_uses_later_candidate :
    (start_server fsEnvC1).spawnAttempts =
      ["./server/main.py", "../server/dist/main.exe"] ∧
    "../server/dist/main.exe" ∈ (start_server fsEnvC1).spawnAttempts ∧
    (start_server fsEnvC1).result = .ok "Server started from ../server/dist/main.exe" :=
  ⟨rfl, by decide, rfl⟩

/-- **C1 (amended).** The first existing candidate is always the first on
which a spawn is attempted, and when its spawn succeeds it is the only
candidate ever used; but when its spawn fails, the same call falls
through and attempts the next existing candidate.  Stated for the shape
`[A(missing), B(exists), C…]` of the claim. -/
theorem start_server_first_existing (env : FsEnv)
    (hA : env.pathExists "../server/main.py" = false)
    (hB : env.pathExists "./server/main.py" = true) :
    (env.spawn "./server/main.py" = .ok →
      (start_server env).spawnAttempts = ["./server/main.py"] ∧
      (start_server env).result = .ok "Server started from ./server/main.py") ∧
    (∀ e, env.spawn "./server/main.py" = .failed e →
      env.pathExists "../server/dist/main.exe" = true →
      env.spawn "../server/dist/main.exe" = .ok →
      (start_server env).spawnAttempts =
        ["./server/main.py", "../server/dist/main.exe"] ∧
      (start_server env).result = .ok "Server started from ../server/dist/main.exe") := by
  constructor
  · intro hs
    simp [start_server, start_server_loop, server_paths, hA, hB, hs]
  · intro e hs hC hsC
    simp [start_server, start_server_loop, server_paths, hA, hB, hs, hC, hsC]

/-- Environment where only candidate B exists and its spawn succeeds. -/
def fsEnvC1ok : FsEnv :=
  { pathExists := fun p => p == "./server/main.py", spawn := fun _ => .ok }

/-- Witness for the amended C1: with only `./server/main.py` existing and
spawnable, it is the unique spawn attempt and names the result. -/
theorem start_server_first_existing_witness :
    (start_server fsEnvC1ok).spawnAttempts = ["./server/main.py"] ∧
    (start_server fsEnvC1ok).result = .ok "Server started from ./server/main.py" :=
  (start_server_first_existing fsEnvC1ok rfl rfl).1 rfl

/-! ## C8: what a spawn failure surfaces -/

/-- Environment for C8: only the last candidate `server.exe` exists, and
the OS refuses to spawn it. -/
def fsEnvC8 : FsEnv :=
  { pathExists := fun p => p == "server.exe",
    spawn := fun _ => .failed "Access is denied. (os error 5)" }

/-- **C8 counterexample.** When the OS refuses to spawn the selected
candidate, the caller receives the fixed string
`"Could not find or start server executable"`, which does not contain
the underlying OS error (`"os error 5"`); the OS error appears only in
the warning log. -/
theorem start_server_spawn_error_not_surfaced :
    (start_server fsEnvC8).result = .error "Could not find or start server executable" ∧
    ¬ ("os error 5".data <:+: "Could not find or start server executable".data) ∧
    (start_server fsEnvC8).warns =
      ["Failed to start server from server.exe: Access is denied. (os error 5)"] :=
  ⟨rfl, by decide, rfl⟩

/-- **C8 (amended).** A spawn failure on the selected candidate is surfaced
as a *warning log* entry that includes the candidate path and the
underlying OS error; the error value returned to the caller (when no
later candidate succeeds) is the fixed locate-failure string, which does
not include the OS error. -/
theorem start_server_spawn_error_logged (env : FsEnv) (e : String)
    (h1 : env.pathExists "../server/main.py" = false)
    (h2 : env.pathExists "./server/main.py" = false)
    (h3 : env.pathExists "../server/dist/main.exe" = false)
    (h4 : env.pathExists "./server/dist/main.exe" = false)
    (h5 : env.pathExists "server.exe" = true)
    (hs : env.spawn "server.exe" = .failed e) :
    (start_server env).warns = ["Failed to start server from server.exe: " ++ e] ∧
    e.data <:+: ("Failed to start server from server.exe: " ++ e).data ∧
    (start_server env).result = .error "Could not find or start server executable" := by
  refine ⟨?_, ⟨"Failed to start server from server.exe: ".data, [], ?_⟩, ?_⟩
  · simp [start_server, start_server_loop, server_paths, h1, h2, h3, h4, h5, hs]
  · simp [String.data_append]
  · simp [start_server, start_server_loop, server_paths, h1, h2, h3, h4, h5, hs]

/-- Witness for the amended C8 at the concrete environment `fsEnvC8`. -/
theorem start_server_spawn_error_logged_witness :
    (start_server fsEnvC8).warns =
      ["Failed to start server from server.exe: " ++ "Access is denied. (os error 5)"] ∧
    "Access is denied. (os error 5)".data <:+:
      ("Failed to start server from server.exe: " ++ "Access is denied. (os error 5)").data ∧
    (start_server fsEnvC8).result = .error "Could not find or start server executable" :=
  start_server_spawn_error_logged fsEnvC8 "Access is denied. (os error 5)"
    rfl rfl rfl rfl rfl rfl

/-! ## The polling loop of `wait_for_server_ready` -/

lemma wait_loop_step_true (env : Nat → HttpResult) (i n : Nat)
    (h : healthBool (env i) = true) :
    wait_loop env i (n+1) = (.ok true, [.probe i]) := by
  simp [wait_loop, check_fst, h]

lemma wait_loop_step_false (env : Nat → HttpResult) (i n : Nat)
    (h : healthBool (env i) = false)
    (r : Except String Bool) (evs : List Ev)
    (ht : wait_loop env (i+1) n = (r, evs)) :
    wait_loop env i (n+1) = (r, .probe i :: .sleep 1 :: evs) := by
  simp [wait_loop, check_fst, h, ht]

lemma failTrace_numProbes (n : Nat) : ∀ i, numProbes (failTrace i n) = n := by
  induction n with
  | zero => intro i; rfl
  | succ n ih =>
    intro i
    simp only [failTrace, numProbes, List.filter] at ih ⊢
    simp [isProbe, isSleep, ih (i+1)]

lemma failTrace_numSleeps (n : Nat) : ∀ i, numSleeps (failTrace i n) = n := by
  induction n with
  | zero => intro i; rfl
  | succ n ih =>
    intro i
    simp only [failTrace, numSleeps, List.filter] at ih ⊢
    simp [isProbe, isSleep, ih (i+1)]

lemma failTrace_numErrArms (n : Nat) : ∀ i, numErrArms (failTrace i n) = 0 := by
  induction n with
  | zero => intro i; rfl
  | succ n ih =>
    intro i
    simp only [failTrace, numErrArms, List.filter] at ih ⊢
    simp [isErrArm, ih (i+1)]

lemma failTrace_concat (n : Nat) : ∀ i, ∃ l, failTrace i (n+1) = l ++ [Ev.sleep 1] := by
  induction n with
  | zero => intro i; exact ⟨[.probe i], rfl⟩
  | succ n ih =>
    intro i
    obtain ⟨l, hl⟩ := ih (i+1)
    exact ⟨.probe i :: .sleep 1 :: l, by rw [failTrace, hl]; rfl⟩

lemma failTrace_getLast (n i : Nat) : (failTrace i (n+1)).getLast? = some (.sleep 1) := by
  obtain ⟨l, hl⟩ := failTrace_concat n i
  rw [hl, List.getLast?_concat]

/-- If every probe among the next `n` fails, the loop runs all `n`
iterations, emits the fail trace (each probe followed by a one-second
sleep), and returns the timeout error. -/
lemma wait_loop_never (env : Nat → HttpResult) (n : Nat) : ∀ i,
    (∀ j, j < n → healthBool (env (i + j)) = false) →
    wait_loop env i n = (.error timeoutMsg, failTrace i n) := by
  induction n with
  | zero => intro i _; rfl
  | succ n ih =>
    intro i h
    have h0 : healthBool (env i) = false := by simpa using h 0 (Nat.succ_pos n)
    have hrest : ∀ j, j < n → healthBool (env (i + 1 + j)) = false := by
      intro j hj
      have h2 := h (j+1) (by omega)
      have e : i + (j+1) = i + 1 + j := by omega
      rwa [e] at h2
    exact wait_loop_step_false env i n h0 _ _ (ih (i+1) hrest)

/-- If the probes fail for `m` iterations and the probe at loop index
`i + m` succeeds, the loop returns `Ok(true)` right after that probe:
the trace is the fail trace of the first `m` iterations followed by the
successful probe, with no trailing sleep. -/
lemma wait_loop_firstTrue (env : Nat → HttpResult) (m : Nat) : ∀ i n, m < n →
    (∀ j, j < m → healthBool (env (i + j)) = false) →
    healthBool (env (i + m)) = true →
    wait_loop env i n = (.ok true, failTrace i m ++ [.probe (i + m)]) := by
  induction m with
  | zero =>
    intro i n hn hfail htrue
    obtain ⟨n', rfl⟩ : ∃ n', n = n' + 1 := ⟨n - 1, by omega⟩
    have : healthBool (env i) = true := by simpa using htrue
    simpa [failTrace] using wait_loop_step_true env i n' this
  | succ m ih =>
    intro i n hn hfail htrue
    obtain ⟨n', rfl⟩ : ∃ n', n = n' + 1 := ⟨n - 1, by omega⟩
    have h0 : healthBool (env i) = false := by simpa using hfail 0 (Nat.succ_pos m)
    have hrest : ∀ j, j < m → healthBool (env (i + 1 + j)) = false := by
      intro j hj
      have h2 := hfail (j+1) (by omega)
      have e : i + (j+1) = i + 1 + j := by omega
      rwa [e] at h2
    have htrue' : healthBool (env (i + 1 + m)) = true := by
      have e : i + (m+1) = i + 1 + m := by omega
      rwa [e] at htrue
    have := ih (i+1) n' (by omega) hrest htrue'
    have step := wait_loop_step_false env i n' h0 _ _ this
    rw [step]
    have e : i + (m+1) = i + 1 + m := by omega
    rw [e, failTrace]
    rfl

lemma numProbes_append (a b : List Ev) : numProbes (a ++ b) = numProbes a + numProbes b := by
  simp [numProbes, List.filter_append]

lemma numSleeps_append (a b : List Ev) : numSleeps (a ++ b) = numSleeps a + numSleeps b := by
  simp [numSleeps, List.filter_append]

/-! ## C4: timeout after exactly 30 attempts -/

/-- **C4.** If the health probe never returns true in any of the 30
iterations, `wait_for_server_ready` terminates with the timeout error
`"Server failed to start within 30 seconds"`, having made exactly 30
probe attempts; the attempt count `30` occurs in the error string. -/
theorem wait_for_server_ready_timeout (env : Nat → HttpResult)
    (h : ∀ j, j < 30 → healthBool (env j) = false) :
    (wait_for_server_ready env).1 = .error timeoutMsg ∧
    numProbes (wait_for_server_ready env).2 = 30 ∧
    "30".data <:+: timeoutMsg.data := by
  have hz : ∀ j, j < 30 → healthBool (env (0 + j)) = false := by
    intro j hj; simpa using h j hj
  have := wait_loop_never env 30 0 hz
  unfold wait_for_server_ready
  rw [this]
  exact ⟨rfl, failTrace_numProbes 30 0, by decide⟩

/-- Witness for C4: with every probe a transport error, the loop times out
after exactly 30 probes. -/
theorem wait_for_server_ready_timeout_witness :
    (wait_for_server_ready (fun _ => .transportError)).1 = .error timeoutMsg ∧
    numProbes (wait_for_server_ready (fun _ => .transportError)).2 = 30 ∧
    "30".data <:+: timeoutMsg.data :=
  wait_for_server_ready_timeout (fun _ => .transportError) (fun _ _ => rfl)

/-! ## C5: success on the k-th attempt -/

/-- **C5.** If the health probe first returns true on the `k`-th attempt
(`1 ≤ k ≤ 30`), `wait_for_server_ready` returns `Ok(true)` immediately
after that probe: exactly `k` probes, exactly `k - 1` sleeps, and the
last event of the run is the successful probe (no sleep follows it). -/
theorem wait_for_server_ready_success (env : Nat → HttpResult) (k : Nat)
    (h1 : 1 ≤ k) (h2 : k ≤ 30)
    (hfail : ∀ j, j < k - 1 → healthBool (env j) = false)
    (htrue : healthBool (env (k - 1)) = true) :
    (wait_for_server_ready env).1 = .ok true ∧
    numProbes (wait_for_server_ready env).2 = k ∧
    numSleeps (wait_for_server_ready env).2 = k - 1 ∧
    (wait_for_server_ready env).2.getLast? = some (.probe (k - 1)) := by
  have hz : ∀ j, j < k - 1 → healthBool (env (0 + j)) = false := by
    intro j hj; simpa using hfail j hj
  have hz2 : healthBool (env (0 + (k - 1))) = true := by simpa using htrue
  have := wait_loop_firstTrue env (k - 1) 0 30 (by omega) hz hz2
  unfold wait_for_server_ready
  rw [this]
  refine ⟨rfl, ?_, ?_, ?_⟩
  · rw [numProbes_append, failTrace_numProbes (k-1) 0]
    simp [numProbes, isProbe]
    omega
  · rw [numSleeps_append, failTrace_numSleeps (k-1) 0]
    simp [numSleeps, isSleep]
  · simp

/-- Witness for C5 with `k = 5`: the backend answers 200 on the 5th probe
and the loop returns success after exactly 5 probes and 4 sleeps. -/
theorem wait_for_server_ready_success_witness :
    (wait_for_server_ready (fun i => if i == 4 then .response 200 else .transportError)).1 =
      .ok true ∧
    numProbes (wait_for_server_ready
      (fun i => if i == 4 then .response 200 else .transportError)).2 = 5 ∧
    numSleeps (wait_for_server_ready
      (fun i => if i == 4 then .response 200 else .transportError)).2 = 5 - 1 ∧
    (wait_for_server_ready
      (fun i => if i == 4 then .response 200 else .transportError)).2.getLast? =
      some (.probe (5 - 1)) :=
  wait_for_server_ready_success _ 5 (by decide) (by decide)
    (by intro j hj
        interval_cases j <;> rfl)
    rfl

/-! ## C10: a sleep follows every failed probe, including the last -/

/-- **C10.** In a run where the backend never becomes reachable, the loop's
trace is exactly 30 failed probes each immediately followed by a
one-second sleep (`failTrace 0 30`): 30 probes, 30 sleeps, and the final
event before the timeout error is returned is the 30th sleep, not the
30th probe. -/
theorem wait_for_server_ready_sleeps_after_every_failure (env : Nat → HttpResult)
    (h : ∀ j, j < 30 → healthBool (env j) = false) :
    (wait_for_server_ready env).2 = failTrace 0 30 ∧
    numProbes (wait_for_server_ready env).2 = 30 ∧
    numSleeps (wait_for_server_ready env).2 = 30 ∧
    (wait_for_server_ready env).2.getLast? = some (.sleep 1) ∧
    (wait_for_server_ready env).1 = .error timeoutMsg := by
  have hz : ∀ j, j < 30 → healthBool (env (0 + j)) = false := by
    intro j hj; simpa using h j hj
  have := wait_loop_never env 30 0 hz
  unfold wait_for_server_ready
  rw [this]
  exact ⟨rfl, failTrace_numProbes 30 0, failTrace_numSleeps 30 0,
    failTrace_getLast 29 0, rfl⟩

/-- Witness for C10: with every probe a 503 response, the run performs 30
probe/sleep pairs and ends with a sleep. -/
theorem wait_for_server_ready_sleeps_witness :
    (wait_for_server_ready (fun _ => .response 503)).2 = failTrace 0 30 ∧
    numProbes (wait_for_server_ready (fun _ => .response 503)).2 = 30 ∧
    numSleeps (wait_for_server_ready (fun _ => .response 503)).2 = 30 ∧
    (wait_for_server_ready (fun _ => .response 503)).2.getLast? = some (.sleep 1) ∧
    (wait_for_server_ready (fun _ => .response 503)).1 = .error timeoutMsg :=
  wait_for_server_ready_sleeps_after_every_failure (fun _ => .response 503)
    (fun _ _ => rfl)

/-! ## C9: the `Err` arms over the health check are dead code -/

/-- **C9.** `check_server_health` returns `Ok` on every probe outcome, so
the `Err(e)` arm of the match inside `wait_for_server_ready`'s polling
loop never runs (no `Ev.errArm` event ever appears in any loop trace)
and the `Err(e)` arm of the startup task's initial health check never
runs either. -/
theorem health_check_err_arms_unreachable :
    (∀ r, (check_server_health r).1 = Except.ok (healthBool r)) ∧
    (∀ env i n, numErrArms (wait_loop env i n).2 = 0) ∧
    (∀ env, (startup_task env).healthErrArm = false) := by
  refine ⟨check_fst, ?_, ?_⟩
  · intro env i n
    induction n generalizing i with
    | zero => rfl
    | succ n ih =>
      cases hb : healthBool (env i) with
      | true => rw [wait_loop_step_true env i n hb]; rfl
      | false =>
        rcases he : wait_loop env (i+1) n with ⟨r, evs⟩
        rw [wait_loop_step_false env i n hb r evs he]
        have h2 := ih (i+1)
        rw [he] at h2
        simpa [numErrArms, List.filter, isErrArm] using h2
  · intro env
    cases hb : healthBool env.startupProbe with
    | true => simp [startup_task, check_fst, hb]
    | false =>
      rcases hE : start_embedded_server env.embed with ⟨er, sp, sl⟩
      cases er with
      | ok u => simp [startup_task, check_fst, hb, hE]
      | error e =>
        rcases hS : start_server env.fs with ⟨sr, att, ws⟩
        cases sr <;> simp [startup_task, check_fst, hb, hE, hS]

/-! ## C3: the embedded-resource launch -/

/-- **C3.** With the resource directory resolved to `d`,
`start_embedded_server` looks for the fixed name `nyx-server.exe` under
it and errors without attempting a spawn when it is absent; otherwise
(spawn succeeding) it sleeps the 3-second grace period and folds the
non-blocking `try_wait` into exactly three outcomes: early exit → error
carrying the exit status, still running → success, status-check error →
error carrying that error. -/
theorem start_embedded_server_spec (env : EmbedEnv) (d : String)
    (hd : env.resourceDir = .ok d) :
    (env.pathExists (d ++ "/nyx-server.exe") = false →
      (start_embedded_server env).result =
        .error "Server executable not found in resources" ∧
      (start_embedded_server env).spawnAttempted = false) ∧
    (∀ s, env.pathExists (d ++ "/nyx-server.exe") = true →
      env.spawnResult = .ok () → env.tryWait = .exited s →
      (start_embedded_server env).result =
        .error ("Server process exited early with status: " ++ s) ∧
      (start_embedded_server env).sleeps = [3]) ∧
    (env.pathExists (d ++ "/nyx-server.exe") = true →
      env.spawnResult = .ok () → env.tryWait = .running →
      (start_embedded_server env).result = .ok () ∧
      (start_embedded_server env).sleeps = [3]) ∧
    (∀ e, env.pathExists (d ++ "/nyx-server.exe") = true →
      env.spawnResult = .ok () → env.tryWait = .checkError e →
      (start_embedded_server env).result =
        .error ("Error checking server process: " ++ e) ∧
      (start_embedded_server env).sleeps = [3]) := by
  refine ⟨?_, ?_, ?_, ?_⟩
  · intro habs
    simp [start_embedded_server, hd, habs]
  · intro s hex hsp htw
    simp [start_embedded_server, hd, hex, hsp, htw]
  · intro hex hsp htw
    simp [start_embedded_server, hd, hex, hsp, htw]
  · intro e hex hsp htw
    simp [start_embedded_server, hd, hex, hsp, htw]

/-- Environment where the resource directory resolves but the packaged
binary is absent. -/
def embedEnvMissing : EmbedEnv :=
  { resourceDir := .ok "C:/app/resources", pathExists := fun _ => false,
    spawnResult := .ok (), tryWait := .running }

/-- Environment where the packaged binary exists, spawns, and then exits
within the grace period with status `exit code: 1`. -/
def embedEnvExited : EmbedEnv :=
  { resourceDir := .ok "C:/app/resources", pathExists := fun _ => true,
    spawnResult := .ok (), tryWait := .exited "exit code: 1" }

/-- Witness for C3: the missing-binary case errors without spawning, and
the early-exit case errors with the exit status after the 3-second
grace sleep. -/
theorem start_embedded_server_spec_witness :
    ((start_embedded_server embedEnvMissing).result =
       .error "Server executable not found in resources" ∧
     (start_embedded_server embedEnvMissing).spawnAttempted = false) ∧
    ((start_embedded_server embedEnvExited).result =
       .error ("Server process exited early with status: " ++ "exit code: 1") ∧
     (start_embedded_server embedEnvExited).sleeps = [3]) :=
  ⟨(start_embedded_server_spec embedEnvMissing "C:/app/resources" rfl).1 rfl,
   (start_embedded_server_spec embedEnvExited "C:/app/resources" rfl).2.1
     "exit code: 1" rfl rfl rfl⟩

/-! ## C6: no launch when the backend is already reachable -/

/-- **C6.** When the startup task's initial health probe answers true,
neither launcher is invoked: zero calls to `start_embedded_server`, zero
calls to `start_server`, zero OS spawn attempts, and the task stops
after logging that the server is already running. -/
theorem startup_task_already_running (env : RunEnv)
    (h : healthBool env.startupProbe = true) :
    (startup_task env).embeddedCalls = 0 ∧
    (startup_task env).externalCalls = 0 ∧
    (startup_task env).spawnCalls = 0 ∧
    (startup_task env).logs = ["Server is already running"] := by
  simp [startup_task, check_fst, h]

/-- Startup environment in which the backend already answers 200. -/
def runEnvUp : RunEnv :=
  { startupProbe := .response 200,
    embed := { resourceDir := .error "resource dir unavailable",
               pathExists := fun _ => false,
               spawnResult := .ok (), tryWait := .running },
    fs := { pathExists := fun _ => false, spawn := fun _ => .ok } }

/-- Witness for C6 at `runEnvUp`. -/
theorem startup_task_already_running_witness :
    (startup_task runEnvUp).embeddedCalls = 0 ∧
    (startup_task runEnvUp).externalCalls = 0 ∧
    (startup_task runEnvUp).spawnCalls = 0 ∧
    (startup_task runEnvUp).logs = ["Server is already running"] :=
  startup_task_already_running runEnvUp rfl

/-! ## C7: the external fallback runs exactly once and is only logged -/

lemma getLast?_cons_append_singleton (a : String) (l : List String) (x : String) :
    (a :: (l ++ [x])).getLast? = some x := by
  rw [show a :: (l ++ [x]) = (a :: l) ++ [x] from rfl, List.getLast?_concat]

/-- **C7.** When the initial probe answers false and the embedded launch
fails (for any reason, including an early exit within the grace period),
the startup task attempts the external-path fallback exactly once, and
whatever the fallback's outcome the task merely appends a final log
entry naming it — the task is a total function into `StartupTrace`,
with no error or panic channel out of the closure. -/
theorem startup_task_fallback_once (env : RunEnv) (e : String)
    (hp : healthBool env.startupProbe = false)
    (he : (start_embedded_server env.embed).result = .error e) :
    (startup_task env).embeddedCalls = 1 ∧
    (startup_task env).externalCalls = 1 ∧
    ((∃ m, (start_server env.fs).result = .ok m ∧
        (startup_task env).logs.getLast? = some ("Fallback server start: " ++ m)) ∨
     (∃ e2, (start_server env.fs).result = .error e2 ∧
        (startup_task env).logs.getLast? =
          some ("All server start methods failed: " ++ e2))) := by
  rcases hE : start_embedded_server env.embed with ⟨er, sp, sl⟩
  have her : er = .error e := by rw [hE] at he; exact he
  subst her
  rcases hS : start_server env.fs with ⟨sr, att, ws⟩
  cases sr with
  | ok msg =>
    refine ⟨?_, ?_, Or.inl ⟨msg, ?_, ?_⟩⟩
    · simp [startup_task, check_fst, hp, hE, hS]
    · simp [startup_task, check_fst, hp, hE, hS]
    · simp [hS]
    · simp [startup_task, check_fst, hp, hE, hS, List.getLast?_concat, getLast?_cons_append_singleton]
  | error e2 =>
    refine ⟨?_, ?_, Or.inr ⟨e2, ?_, ?_⟩⟩
    · simp [startup_task, check_fst, hp, hE, hS]
    · simp [startup_task, check_fst, hp, hE, hS]
    · simp [hS]
    · simp [startup_task, check_fst, hp, hE, hS, List.getLast?_concat, getLast?_cons_append_singleton]

/-- Startup environment in which the probe fails, the embedded binary is
absent (so the embedded launch fails fast), and no external candidate
exists either. -/
def runEnvC7 : RunEnv :=
  { startupProbe := .transportError,
    embed := { resourceDir := .ok "R", pathExists := fun _ => false,
               spawnResult := .ok (), tryWait := .running },
    fs := { pathExists := fun _ => false, spawn := fun _ => .ok } }

/-- Witness for C7 at `runEnvC7`. -/
theorem startup_task_fallback_once_witness :
    (startup_task runEnvC7).embeddedCalls = 1 ∧
    (startup_task runEnvC7).externalCalls = 1 ∧
    ((∃ m, (start_server runEnvC7.fs).result = .ok m ∧
        (startup_task runEnvC7).logs.getLast? = some ("Fallback server start: " ++ m)) ∨
     (∃ e2, (start_server runEnvC7.fs).result = .error e2 ∧
        (startup_task runEnvC7).logs.getLast? =
          some ("All server start methods failed: " ++ e2))) :=
  startup_task_fallback_once runEnvC7 "Server executable not found in resources" rfl rfl

end NyxApp
